import Mathlib

/-!
Layout-aware type lowering and structural rewrites (Triton GPU → LLVM)

A shallow embedding of

* `lib/Conversion/TritonGPUToLLVM/TypeConverter.h`
  (`TritonGPUToLLVMTypeConverter`),
* `lib/Conversion/TritonGPUToLLVM/ViewOpToLLVM.cpp`
  (`SplatOpConversion`, `ArithConstantSplatOpConversion`, `CatOpConversion`,
  `ViewLikeOpConversion`, `TransOpConversion`), and
* the layout query `getShapePerCTA` declared in
  `include/triton/Dialect/TritonGPU/IR/Dialect.h`,

followed by theorems about them.

Conventions of the embedding:

* MLIR types are the inductive `Ty`; a literal LLVM struct type is the list of
  its slot types (`LLVMStructType`).
* Functions that the two files call but that are declared elsewhere
  (`getElemsPerThread`, the dot-operand helper classes) are fields of the
  record `Helpers`, passed explicitly.
* A failed `assert`, a failed `cast<>` and an out-of-range `operator[]` are the
  outcome `Run.abort`; a normal return is `Run.done`.
* `llvm::Optional<Type>` is `Option`; `llvm::None` is `none`.
-/

namespace Triton

/-! ## Types -/

/-- The MLIR types that can occur as element types, scalar operands and slots.
`float w` is a builtin IEEE-style floating-point type of bit-width `w`
(`f16 = float 16`, `f32 = float 32`, `f64 = float 64`); `bf16` is
`BFloat16Type`; `float8` is `triton::Float8Type`. -/
inductive Ty where
  | integer (width : Nat)
  | bf16
  | float (width : Nat)
  | float8
  | tritonPtr (pointee : Ty) (addressSpace : Nat)
  | llvmPtr (pointee : Ty) (addressSpace : Nat)
  | vector (elem : Ty) (num : Nat)
  deriving DecidableEq, Repr

/-- A literal LLVM struct type: the ordered list of its slot types. -/
structure LLVMStructType where
  body : List Ty
  deriving DecidableEq, Repr

/-- Embeds `LLVM::LLVMStructType::getLiteral(ctx, types)`. -/
def LLVMStructType.getLiteral (types : List Ty) : LLVMStructType := ⟨types⟩

/-- The macro `struct_ty(...)`, which expands to `getLiteral`. -/
def struct_ty (types : List Ty) : LLVMStructType := LLVMStructType.getLiteral types

/-- The macro `vec_ty(type, num)`: the vector type of `num` elements. -/
def vec_ty (type : Ty) (num : Nat) : Ty := Ty.vector type num

/-- The helper `type::f32Ty(ctx)`. -/
def f32Ty : Ty := Ty.float 32

/-- Embeds `Type::getIntOrFloatBitWidth`, which asserts that the type is an
integer or a floating-point type (`none` stands for the failed assertion). -/
def getIntOrFloatBitWidth : Ty → Option Nat
  | .integer w => some w
  | .bf16 => some 16
  | .float w => some w
  | _ => none

/-- Embeds `elemTy.isa<IntegerType>()`. -/
def isaIntegerType : Ty → Bool
  | .integer _ => true
  | _ => false

/-! ## Distribution descriptors -/

/-- The encoding attribute of a tensor type. `other` is any attribute that is
none of the five TritonGPU encodings. -/
inductive Attribute where
  | blocked (sizePerThread threadsPerWarp warpsPerCTA order : List Nat)
  | slice (dim : Nat) (parent : Attribute)
  | mma (versionMajor versionMinor : Nat) (warpsPerCTA : List Nat)
  | dotOperand (opIdx : Nat) (parent : Attribute)
  | shared (vec perPhase maxPhase : Nat) (order : List Nat)
  | other (tag : Nat)
  deriving DecidableEq, Repr

/-- A ranked tensor type: shape, element type, and optional encoding
(`none` is the null attribute). -/
structure RankedTensorType where
  shape : List Int
  elementType : Ty
  encoding : Option Attribute
  deriving DecidableEq, Repr

/-- Embeds `type.getRank()`. -/
def RankedTensorType.getRank (type : RankedTensorType) : Nat := type.shape.length

/-- Modelled from the spec: the hardware-generation tag of an MMA descriptor
has two mutually exclusive sub-variants; `isVolta` is the older one. The
method `MmaEncodingAttr::isVolta` is declared outside the two files. -/
def Attribute.isVolta : Attribute → Bool
  | .mma versionMajor _ _ => versionMajor == 1
  | _ => false

/-- Modelled from the spec: the newer hardware generation of an MMA
descriptor. The method `MmaEncodingAttr::isAmpere` is declared outside the two
files. -/
def Attribute.isAmpere : Attribute → Bool
  | .mma versionMajor _ _ => versionMajor == 2
  | _ => false

/-! ## Outcomes -/

/-- The outcome of running a piece of the C++ code: it returns `a`, or it
stops at a failed assertion / cast / bounds check. -/
inductive Run (α : Type) where
  | done (a : α)
  | abort
  deriving DecidableEq, Repr

/-- Sequencing of outcomes. -/
def Run.bind {α β : Type} (r : Run α) (f : α → Run β) : Run β :=
  match r with
  | .done a => f a
  | .abort => .abort

/-- Indexing `v[i]` of a `SmallVector` / `ArrayRef`, which asserts
`i < size()`. -/
def indexAt {α : Type} (v : List α) (i : Nat) : Run α :=
  match v.get? i with
  | some a => .done a
  | none => .abort

/-! ## Collaborating functions declared outside the two files -/

/-- The functions called by the type converter and the rewrites whose bodies
live elsewhere in the repository. Counts are the values used as vector
sizes. -/
structure Helpers where
  /-- The function `triton::gpu::getElemsPerThread(Type)`. -/
  getElemsPerThread : RankedTensorType → Nat
  /-- The function `DotOpFMAConversionHelper::getNumElemsPerThread(shape, dotOpLayout)`. -/
  fmaGetNumElemsPerThread : List Int → Attribute → Nat
  /-- The function `MMA16816ConversionHelper::getANumElemsPerThread(type, wpt)`. -/
  getANumElemsPerThread : RankedTensorType → Nat → Nat
  /-- The function `MMA16816ConversionHelper::getBNumElemsPerThread(type, wpt)`. -/
  getBNumElemsPerThread : RankedTensorType → Nat → Nat
  /-- The method `mmaLayout.decodeVoltaLayoutStates()`, returning
  `(isARow, isBRow, isAVec4, isBVec4, mmaId)`. -/
  decodeVoltaLayoutStates : Attribute → Bool × Bool × Bool × Bool × Nat
  /-- The field `vec` of `DotOpMmaV1ConversionHelper::AParam(isARow, isAVec4)`. -/
  aParamVec : Bool → Bool → Nat
  /-- The field `vec` of `DotOpMmaV1ConversionHelper::BParam(isBRow, isBVec4)`. -/
  bParamVec : Bool → Bool → Nat
  /-- The method `numElemsPerThreadA(shape, isARow, isAVec4, vec)` of
  `DotOpMmaV1ConversionHelper(mmaLayout)`. -/
  numElemsPerThreadA : Attribute → List Int → Bool → Bool → Nat → Nat
  /-- The method `numElemsPerThreadB(shape, isBRow, isBVec4, vec)` of
  `DotOpMmaV1ConversionHelper(mmaLayout)`. -/
  numElemsPerThreadB : Attribute → List Int → Bool → Bool → Nat → Nat

/-! ## The type converter (`TypeConverter.h`) -/

/-- Embeds `convertType` on non-tensor types. The constructor of
`TritonGPUToLLVMTypeConverter` registers: `triton::PointerType` ↦
`convertTritonPointerType`, `triton::Float8Type` ↦ `i8`, `BFloat16Type` ↦
`i16` (these take precedence over the base converter). Every other type of
`Ty` is left to the base `LLVMTypeConverter`, for which builtin integer and
float types and LLVM-dialect types are already legal. -/
def convertType : Ty → Ty
  | .float8 => .integer 8
  | .bf16 => .integer 16
  | .tritonPtr pointee addressSpace => .llvmPtr (convertType pointee) addressSpace
  | .vector elem num => .vector (convertType elem) num
  | .integer w => .integer w
  | .float w => .float w
  | .llvmPtr pointee addressSpace => .llvmPtr pointee addressSpace

/-- Embeds `convertTritonPointerType`. -/
def convertTritonPointerType (pointee : Ty) (addressSpace : Nat) : Ty :=
  .llvmPtr (convertType pointee) addressSpace

/-- The loop `for (i = 0; i < rank * 2; i++) types.push_back(i32)` of the
Shared branch, run for `n` iterations on the vector `types`. -/
def pushI32 : Nat → List Ty → List Ty
  | 0, types => types
  | n + 1, types => pushI32 n (types ++ [Ty.integer 32])

/-- The table `targetTyMap` of the Ampere branch, keyed by bit-width. -/
def targetTyMap (elemTy : Ty) : List (Nat × Ty) :=
  [(32, vec_ty elemTy 1), (16, vec_ty elemTy 2), (8, vec_ty elemTy 4)]

/-- The computation of `targetTy` in the Ampere branch (lines 92-111):
table lookup by bit-width, then the sub-word integer repacking; an
unsupported width hits `assert(false && "Unsupported element type")`. -/
def ampereTargetTy (elemTy : Ty) : Run Ty :=
  match getIntOrFloatBitWidth elemTy with
  | none => .abort
  | some w =>
    match (targetTyMap elemTy).lookup w with
    | some targetTy =>
      if isaIntegerType elemTy && (w == 8 || w == 16) then
        .done (Ty.integer 32)
      else
        .done targetTy
    | none => .abort

/-- The Volta part of the MMA-parent branch (lines 124-142), followed by the
fall-through to `return llvm::None` (lines 145-147). -/
def voltaPart (h : Helpers) (type : RankedTensorType) (mmaLayout : Attribute)
    (opIdx : Nat) (elemTy : Ty) : Run (Option LLVMStructType) :=
  if mmaLayout.isVolta then
    match h.decodeVoltaLayoutStates mmaLayout with
    | (isARow, isBRow, isAVec4, isBVec4, _) =>
      if opIdx == 0 then
        let elems := h.numElemsPerThreadA mmaLayout type.shape isARow isAVec4
          (h.aParamVec isARow isAVec4)
        let x2Ty := vec_ty elemTy 2
        .done (some (struct_ty (List.replicate elems x2Ty)))
      else if opIdx == 1 then
        let elems := h.numElemsPerThreadB mmaLayout type.shape isBRow isBVec4
          (h.bParamVec isBRow isBVec4)
        let x2Ty := vec_ty elemTy 2
        .done (some (struct_ty (List.replicate elems x2Ty)))
      else
        .done none
  else
    .done none

/-- The MMA-parent branch of the DotOperand case (lines 88-143 and the
fall-through 145-147); `wpt` is `mmaLayout.getWarpsPerCTA()`. -/
def mmaParentPart (h : Helpers) (type : RankedTensorType) (mmaLayout : Attribute)
    (wpt : List Nat) (opIdx : Nat) : Run (Option LLVMStructType) :=
  let elemTy := convertType type.elementType
  if mmaLayout.isAmpere then
    (ampereTargetTy elemTy).bind fun targetTy =>
      if opIdx == 0 then
        (indexAt wpt 0).bind fun w0 =>
          let elems := h.getANumElemsPerThread type w0
          .done (some (struct_ty (List.replicate elems targetTy)))
      else if opIdx == 1 then
        (indexAt wpt 1).bind fun w1 =>
          let elems := h.getBNumElemsPerThread type w1
          .done (some (struct_ty (List.replicate elems targetTy)))
      else
        voltaPart h type mmaLayout opIdx elemTy
  else
    voltaPart h type mmaLayout opIdx elemTy

/-- Embeds `layout.isa<BlockedEncodingAttr>()`. -/
def Attribute.isaBlockedEncodingAttr : Attribute → Bool
  | .blocked _ _ _ _ => true
  | _ => false

/-- Embeds `layout.isa<SliceEncodingAttr>()`. -/
def Attribute.isaSliceEncodingAttr : Attribute → Bool
  | .slice _ _ => true
  | _ => false

/-- Embeds `layout.isa<MmaEncodingAttr>()`. -/
def Attribute.isaMmaEncodingAttr : Attribute → Bool
  | .mma _ _ _ => true
  | _ => false

/-- The condition of the first branch (lines 57-59): the layout is non-null
and is a Blocked, Slice or MMA encoding. -/
def isRegisterLayout : Option Attribute → Bool
  | some layout =>
    layout.isaBlockedEncodingAttr || layout.isaSliceEncodingAttr || layout.isaMmaEncodingAttr
  | none => false

/-- Embeds `TritonGPUToLLVMTypeConverter::convertTritonTensorType`. -/
def convertTritonTensorType (h : Helpers) (type : RankedTensorType) :
    Run (Option LLVMStructType) :=
  let layout := type.encoding
  let shape := type.shape
  if isRegisterLayout layout then
    let numElementsPerThread := h.getElemsPerThread type
    let types := List.replicate numElementsPerThread (convertType type.elementType)
    .done (some (LLVMStructType.getLiteral types))
  else
    match layout with
    | some (.shared _ _ _ _) =>
      let types : List Ty := []
      let ptrType := Ty.llvmPtr (convertType type.elementType) 3
      let types := types ++ [ptrType]
      let rank := type.getRank
      let types := pushI32 (rank * 2) types
      .done (some (LLVMStructType.getLiteral types))
    | some (.dotOperand opIdx parent) =>
      match parent with
      | .blocked _ _ _ _ =>
        let numElemsPerThread :=
          h.fmaGetNumElemsPerThread shape (.dotOperand opIdx parent)
        .done (some (LLVMStructType.getLiteral (List.replicate numElemsPerThread f32Ty)))
      | .mma versionMajor versionMinor wpt =>
        mmaParentPart h type (.mma versionMajor versionMinor wpt) wpt opIdx
      | _ => .abort
    | _ => .done none

/-! ## Lowered values (`ViewOpToLLVM.cpp`) -/

/-- The attribute of an `LLVM::ConstantOp`. -/
inductive ConstAttr where
  | floatAttr (bits : Nat)
  | integerAttr (value : Int)
  deriving DecidableEq, Repr

/-- A scalar SSA value of the lowered program: a value defined elsewhere
(`arg`), the result of an `LLVM::ConstantOp`, or of an `LLVM::BitcastOp`. -/
inductive Value where
  | arg (id : Nat) (ty : Ty)
  | constant (ty : Ty) (attr : ConstAttr)
  | bitcast (ty : Ty) (src : Value)
  deriving DecidableEq, Repr

/-- Embeds `Value::getType`. -/
def Value.getType : Value → Ty
  | .arg _ ty => ty
  | .constant ty _ => ty
  | .bitcast ty _ => ty

/-- The macro `bitcast(val, type)`, creating an `LLVM::BitcastOp`. -/
def bitcast (val : Value) (type : Ty) : Value := Value.bitcast type val

/-- A struct-typed SSA value: its declared struct type and the elements
packed into it, in slot order. -/
structure StructValue where
  type : LLVMStructType
  elems : List Value
  deriving DecidableEq, Repr

/-- Modelled from the spec: `getStructFromElements` (declared in `Utility.h`)
packs the given elements, in order, into a value of the given register-group
type. -/
def getStructFromElements (elems : List Value) (structTy : LLVMStructType) : StructValue :=
  ⟨structTy, elems⟩

/-- Modelled from the spec: `getElementsFromStruct` (declared in `Utility.h`)
decomposes a register group into its individual elements, in slot order. -/
def getElementsFromStruct (llvmStruct : StructValue) : List Value :=
  llvmStruct.elems

/-- Modelled from the spec: the Shared-Memory Object (declared in
`Utility.h`), a record of base address, per-dimension strides and
per-dimension offsets. -/
structure SharedMemoryObject where
  base : Value
  strides : List Value
  offsets : List Value
  deriving DecidableEq, Repr

/-- Modelled from the spec: `getStructFromSharedMemoryObject` (declared in
`Utility.h`) serialises the object into a flat structure: base, then the
strides, then the offsets; every slot has the type of its element. -/
def getStructFromSharedMemoryObject (smemObj : SharedMemoryObject) : StructValue :=
  let elems := smemObj.base :: (smemObj.strides ++ smemObj.offsets)
  let types := elems.map Value.getType
  getStructFromElements elems (struct_ty types)

/-- Modelled from the spec: `getSharedMemoryObjectFromStruct` (declared in
`Utility.h`) reads back a flat structure of `1 + 2 * rank` slots: the base,
then `rank` strides, then the offsets. -/
def getSharedMemoryObjectFromStruct (llvmStruct : StructValue) : Run SharedMemoryObject :=
  match getElementsFromStruct llvmStruct with
  | [] => .abort
  | base :: rest =>
    let rank := rest.length / 2
    .done ⟨base, rest.take rank, rest.drop rank⟩

/-- Embeds `LogicalResult`. -/
inductive LogicalResult where
  | success
  | failure
  deriving DecidableEq, Repr

/-- What a `matchAndRewrite` leaves behind: its returned status and the value
handed to `rewriter.replaceOp` (if it was called). -/
structure RewriteResult where
  status : LogicalResult
  replacement : Option StructValue
  deriving DecidableEq, Repr

/-! ## The rewrites -/

/-- Embeds `SplatOpConversion::convertSplatLikeOp`. -/
def SplatOpConversion.convertSplatLikeOp (h : Helpers) (elemType : Ty)
    (resType : RankedTensorType) (constVal : Value) : StructValue :=
  let tensorTy := resType
  let srcType := convertType elemType
  let llSrc := bitcast constVal srcType
  let elemsPerThread := h.getElemsPerThread tensorTy
  let elems := List.replicate elemsPerThread llSrc
  let elemTypes := List.replicate elems.length srcType
  let structTy := LLVMStructType.getLiteral elemTypes
  getStructFromElements elems structTy

/-- Embeds `SplatOpConversion::matchAndRewrite`; `src` is `adaptor.src()` and
`opType` is `op.getType()`. -/
def SplatOpConversion.matchAndRewrite (h : Helpers) (opType : RankedTensorType)
    (src : Value) : RewriteResult :=
  let llStruct := SplatOpConversion.convertSplatLikeOp h src.getType opType src
  ⟨.success, some llStruct⟩

/-- The loop `for (Value v : vals) retVals.push_back(v)`. -/
def pushAll (retVals vals : List Value) : List Value :=
  vals.foldl (fun acc v => acc ++ [v]) retVals

/-- Embeds `CatOpConversion::matchAndRewrite`; `resultTy` is `op.getType()`,
`lhs` and `rhs` are the adaptor operands. -/
def CatOpConversion.matchAndRewrite (h : Helpers) (resultTy : RankedTensorType)
    (lhs rhs : StructValue) : RewriteResult :=
  let elems := h.getElemsPerThread resultTy
  let elemTy := convertType resultTy.elementType
  let types := List.replicate elems elemTy
  let lhsVals := getElementsFromStruct lhs
  let rhsVals := getElementsFromStruct rhs
  let retVals : List Value := []
  let retVals := pushAll retVals lhsVals
  let retVals := pushAll retVals rhsVals
  let structTy := LLVMStructType.getLiteral types
  let ret := getStructFromElements retVals structTy
  ⟨.success, some ret⟩

/-- Embeds `ViewLikeOpConversion<SourceOp>::matchAndRewrite` (instantiated for
`triton::ViewOp` and `triton::ExpandDimsOp`). -/
def ViewLikeOpConversion.matchAndRewrite (h : Helpers) (resultTy : RankedTensorType)
    (src : StructValue) : RewriteResult :=
  let elems := h.getElemsPerThread resultTy
  let elemTy := convertType resultTy.elementType
  let types := List.replicate elems elemTy
  let structTy := LLVMStructType.getLiteral types
  let vals := getElementsFromStruct src
  let view := getStructFromElements vals structTy
  ⟨.success, some view⟩

/-- The part of `TransOpConversion::matchAndRewrite` between reading the
source object and serialising the destination object (lines 166-171). -/
def TransOpConversion.transpose (srcSmemObj : SharedMemoryObject) : Run SharedMemoryObject :=
  (indexAt srcSmemObj.strides 1).bind fun s1 =>
  (indexAt srcSmemObj.strides 0).bind fun s0 =>
  (indexAt srcSmemObj.offsets 1).bind fun o1 =>
  (indexAt srcSmemObj.offsets 0).bind fun o0 =>
    let dstStrides := [s1, s0]
    let dstOffsets := [o1, o0]
    .done ⟨srcSmemObj.base, dstStrides, dstOffsets⟩

/-- Embeds `TransOpConversion::matchAndRewrite`; `src` is `adaptor.src()`. -/
def TransOpConversion.matchAndRewrite (src : StructValue) : Run RewriteResult :=
  (getSharedMemoryObjectFromStruct src).bind fun srcSmemObj =>
  (TransOpConversion.transpose srcSmemObj).bind fun dstSmemObj =>
    let retVal := getStructFromSharedMemoryObject dstSmemObj
    .done ⟨.success, some retVal⟩

/-- Embeds `elemType.isBF16()`. -/
def Ty.isBF16 : Ty → Bool
  | .bf16 => true
  | _ => false

/-- The element-type predicates `type::isFloat` and `type::isInt`, declared in
`triton/Conversion/MLIRTypes.h`, outside the two files. -/
structure TypeQueries where
  /-- The predicate `type::isFloat(Type)`. -/
  isFloat : Ty → Bool
  /-- The predicate `type::isInt(Type)`. -/
  isInt : Ty → Bool

/-- The value attribute of an `arith::ConstantOp`: a `SplatElementsAttr` with
its element type and the raw bits of its single value, or any other
attribute. -/
inductive ArithValueAttr where
  | splatElements (elementType : Ty) (rawValue : Nat)
  | nonSplat (tag : Nat)
  deriving DecidableEq, Repr

/-- Embeds `ArithConstantSplatOpConversion::matchAndRewrite`; `value` is
`op.getValue()` and `opType` is `op.getType()`. -/
def ArithConstantSplatOpConversion.matchAndRewrite (h : Helpers) (q : TypeQueries)
    (opType : RankedTensorType) (value : ArithValueAttr) : RewriteResult :=
  match value with
  | .nonSplat _ => ⟨.failure, none⟩
  | .splatElements elemType rawValue =>
    let finish (val : ConstAttr) : RewriteResult :=
      let constOp := Value.constant elemType val
      let llStruct := SplatOpConversion.convertSplatLikeOp h elemType opType constOp
      ⟨.success, some llStruct⟩
    if elemType.isBF16 || q.isFloat elemType then
      finish (ConstAttr.floatAttr rawValue)
    else if q.isInt elemType then
      finish (ConstAttr.integerAttr rawValue)
    else
      ⟨.failure, none⟩

/-! ## Layout queries (`Dialect.h`) -/

/-- Modelled from the spec: `getShapePerCTA(layout, tensorShape)` is declared
in `Dialect.h` and its body is not in the files. For a Blocked descriptor it
is, per dimension of the tensor shape, `sizePerThread × threadsPerWarp ×
warpsPerCTA` capped at the tensor extent; the result is unsigned. Other
descriptors are not modelled (`none`). -/
def getShapePerCTA (layout : Attribute) (tensorShape : List Int) : Option (List Nat) :=
  match layout with
  | .blocked sizePerThread threadsPerWarp warpsPerCTA _ =>
    some ((List.range tensorShape.length).map fun d =>
      min (sizePerThread.getD d 0 * threadsPerWarp.getD d 0 * warpsPerCTA.getD d 0)
        (tensorShape.getD d 0).toNat)
  | _ => none

/-! ## Sample data used to instantiate the theorems -/

/-- A collaborator environment in which every count is `n`, every Volta flag
is `false` and every vector width is `1`. -/
def sampleHelpers (n : Nat) : Helpers where
  getElemsPerThread := fun _ => n
  fmaGetNumElemsPerThread := fun _ _ => n
  getANumElemsPerThread := fun _ _ => n
  getBNumElemsPerThread := fun _ _ => n
  decodeVoltaLayoutStates := fun _ => (false, false, false, false, 0)
  aParamVec := fun _ _ => 1
  bParamVec := fun _ _ => 1
  numElemsPerThreadA := fun _ _ _ _ _ => n
  numElemsPerThreadB := fun _ _ _ _ _ => n

/-- Element-type predicates that hold of the builtin floating-point types
and of the integer types respectively. -/
def sampleTypeQueries : TypeQueries where
  isFloat := fun t => match t with
    | .float _ => true
    | _ => false
  isInt := fun t => match t with
    | .integer _ => true
    | _ => false

/-- The Blocked descriptor of the concrete scenario: per-thread run `[1,1]`,
threads-per-warp `[4,8]`, warps-per-CTA `[1,1]`, order `[1,0]`. -/
def sampleBlocked : Attribute := .blocked [1, 1] [4, 8] [1, 1] [1, 0]

/-- A `4 x 8` tensor type of the given element type and descriptor. -/
def sampleTensor (elementType : Ty) (encoding : Attribute) : RankedTensorType :=
  ⟨[4, 8], elementType, some encoding⟩

/-- The `i`-th externally defined value of type `ty`. -/
def v (i : Nat) (ty : Ty) : Value := Value.arg i ty

/-! ## Auxiliary lemmas -/

theorem pushAll_eq_append (retVals vals : List Value) :
    pushAll retVals vals = retVals ++ vals := by
  unfold pushAll
  induction vals generalizing retVals with
  | nil => simp
  | cons x xs ih => simp [List.foldl_cons, ih]

theorem pushI32_eq_append (n : Nat) (types : List Ty) :
    pushI32 n types = types ++ List.replicate n (Ty.integer 32) := by
  induction n generalizing types with
  | zero => simp [pushI32]
  | succ k ih =>
    rw [pushI32, ih, List.replicate_succ, List.append_assoc]
    rfl

theorem convertType_idem (t : Ty) : convertType (convertType t) = convertType t := by
  induction t with
  | integer w => rfl
  | bf16 => rfl
  | float w => rfl
  | float8 => rfl
  | tritonPtr p a _ => rfl
  | llvmPtr p a _ => rfl
  | vector e n ih => simp [convertType, ih]

/-! ## Structural rewrites -/

/-- C1: for every Shared-Memory Object with base `b`, strides `[s0, s1]` and
offsets `[o0, o1]`, the Transpose rewrite produces the object with base `b`,
strides `[s1, s0]` and offsets `[o1, o0]`; on the serialised operand the
rewrite succeeds and replaces the op by the serialisation of that object. -/
theorem trans_swaps_strides_and_offsets (b s0 s1 o0 o1 : Value) :
    TransOpConversion.transpose ⟨b, [s0, s1], [o0, o1]⟩
        = Run.done ⟨b, [s1, s0], [o1, o0]⟩ ∧
    TransOpConversion.matchAndRewrite
        (getStructFromSharedMemoryObject ⟨b, [s0, s1], [o0, o1]⟩)
        = Run.done ⟨LogicalResult.success,
            some (getStructFromSharedMemoryObject ⟨b, [s1, s0], [o1, o0]⟩)⟩ := by
  constructor
  · rfl
  · simp [TransOpConversion.matchAndRewrite, getSharedMemoryObjectFromStruct,
      getStructFromSharedMemoryObject, getElementsFromStruct, getStructFromElements,
      TransOpConversion.transpose, Run.bind, indexAt]

/-- C2: the element sequence packed by the Concatenation rewrite is exactly
the elements of `lhs` followed by the elements of `rhs`, in their original
order; so its length is the sum of the two lengths and its first
`length lhs` elements are those of `lhs` (lengths 4 and 6 give 10). -/
theorem cat_packs_lhs_then_rhs (h : Helpers) (resultTy : RankedTensorType)
    (lhs rhs : StructValue) :
    ∃ ret, (CatOpConversion.matchAndRewrite h resultTy lhs rhs).replacement = some ret ∧
      getElementsFromStruct ret
        = getElementsFromStruct lhs ++ getElementsFromStruct rhs ∧
      (getElementsFromStruct ret).length
        = (getElementsFromStruct lhs).length + (getElementsFromStruct rhs).length ∧
      (getElementsFromStruct ret).take (getElementsFromStruct lhs).length
        = getElementsFromStruct lhs ∧
      (getElementsFromStruct ret).drop (getElementsFromStruct lhs).length
        = getElementsFromStruct rhs := by
  refine ⟨_, rfl, ?_⟩
  have hpack : getElementsFromStruct
      (getStructFromElements
        (pushAll (pushAll [] (getElementsFromStruct lhs)) (getElementsFromStruct rhs))
        (LLVMStructType.getLiteral
          (List.replicate (h.getElemsPerThread resultTy) (convertType resultTy.elementType))))
      = getElementsFromStruct lhs ++ getElementsFromStruct rhs := by
    simp [getElementsFromStruct, getStructFromElements, pushAll_eq_append]
  refine ⟨hpack, ?_, ?_, ?_⟩
  · rw [hpack, List.length_append]
  · rw [hpack, List.take_left]
  · rw [hpack, List.drop_left]

/-- C3 (as stated, refuted): with a result type whose `elemsPerThread` is 3
and inputs of one element each, the Concatenation rewrite reports success and
replaces the op by a value whose declared type has 3 slots while 2 elements
are packed. -/
theorem cat_mismatch_still_succeeds :
    (CatOpConversion.matchAndRewrite (sampleHelpers 3)
        (sampleTensor (Ty.float 32) sampleBlocked)
        ⟨⟨[Ty.float 32]⟩, [v 0 (Ty.float 32)]⟩
        ⟨⟨[Ty.float 32]⟩, [v 1 (Ty.float 32)]⟩)
      = ⟨LogicalResult.success,
          some ⟨⟨[Ty.float 32, Ty.float 32, Ty.float 32]⟩,
                [v 0 (Ty.float 32), v 1 (Ty.float 32)]⟩⟩ := by
  rfl

/-- C3 (amended): the Concatenation rewrite performs no length check. For
every result type and inputs it reports success and replaces the op by the
value whose declared register-group type has exactly `elemsPerThread(resultTy)`
slots, each the lowered element type, and whose packed elements are exactly
those of `lhs` followed by those of `rhs` (`length lhs + length rhs` of them);
the declared slot count equals the number of packed elements exactly when
`elemsPerThread(resultTy)` is that sum. -/
theorem cat_always_succeeds_without_length_check (h : Helpers)
    (resultTy : RankedTensorType) (lhs rhs : StructValue) :
    CatOpConversion.matchAndRewrite h resultTy lhs rhs
      = ⟨LogicalResult.success,
          some ⟨⟨List.replicate (h.getElemsPerThread resultTy)
                  (convertType resultTy.elementType)⟩,
                getElementsFromStruct lhs ++ getElementsFromStruct rhs⟩⟩ ∧
    (CatOpConversion.matchAndRewrite h resultTy lhs rhs).status = LogicalResult.success ∧
    ∃ ret, (CatOpConversion.matchAndRewrite h resultTy lhs rhs).replacement = some ret ∧
      ret.type.body
        = List.replicate (h.getElemsPerThread resultTy) (convertType resultTy.elementType) ∧
      ret.type.body.length = h.getElemsPerThread resultTy ∧
      (∀ t ∈ ret.type.body, t = convertType resultTy.elementType) ∧
      ret.elems = getElementsFromStruct lhs ++ getElementsFromStruct rhs ∧
      ret.elems.take (getElementsFromStruct lhs).length = getElementsFromStruct lhs ∧
      ret.elems.drop (getElementsFromStruct lhs).length = getElementsFromStruct rhs ∧
      ret.elems.length
        = (getElementsFromStruct lhs).length + (getElementsFromStruct rhs).length ∧
      (ret.type.body.length = ret.elems.length ↔
        h.getElemsPerThread resultTy
          = (getElementsFromStruct lhs).length + (getElementsFromStruct rhs).length) := by
  have hEq : CatOpConversion.matchAndRewrite h resultTy lhs rhs
      = ⟨LogicalResult.success,
          some ⟨⟨List.replicate (h.getElemsPerThread resultTy)
                  (convertType resultTy.elementType)⟩,
                getElementsFromStruct lhs ++ getElementsFromStruct rhs⟩⟩ := by
    simp [CatOpConversion.matchAndRewrite, pushAll_eq_append, getStructFromElements,
      LLVMStructType.getLiteral]
  rw [hEq]
  refine ⟨rfl, rfl, _, rfl, rfl, ?_, ?_, rfl, ?_, ?_, ?_, ?_⟩
  · simp
  · intro t ht
    exact List.eq_of_mem_replicate ht
  · exact List.take_left _ _
  · exact List.drop_left _ _
  · exact List.length_append _ _
  · show (List.replicate (h.getElemsPerThread resultTy)
        (convertType resultTy.elementType)).length
      = (getElementsFromStruct lhs ++ getElementsFromStruct rhs).length ↔ _
    rw [List.length_replicate, List.length_append]

/-- C4: for every scalar `constVal` and result type, the Splat rewrite yields
a register group of exactly `elemsPerThread(resType)` slots, every slot
holding the same value (`constVal` bitcast to the lowered element type) and
every slot type being the lowered element type; when `elemsPerThread` is 1
the group has exactly one element. -/
theorem splat_replicates_scalar (h : Helpers) (elemType : Ty)
    (resType : RankedTensorType) (constVal : Value) :
    SplatOpConversion.convertSplatLikeOp h elemType resType constVal
      = ⟨⟨List.replicate (h.getElemsPerThread resType) (convertType elemType)⟩,
         List.replicate (h.getElemsPerThread resType)
           (bitcast constVal (convertType elemType))⟩ ∧
    (SplatOpConversion.convertSplatLikeOp h elemType resType constVal).elems.length
      = h.getElemsPerThread resType ∧
    (SplatOpConversion.convertSplatLikeOp h elemType resType constVal).type.body.length
      = h.getElemsPerThread resType ∧
    (∀ x ∈ (SplatOpConversion.convertSplatLikeOp h elemType resType constVal).elems,
      x = bitcast constVal (convertType elemType) ∧ x.getType = convertType elemType) ∧
    (∀ t ∈ (SplatOpConversion.convertSplatLikeOp h elemType resType constVal).type.body,
      t = convertType elemType) ∧
    (h.getElemsPerThread resType = 1 →
      (SplatOpConversion.convertSplatLikeOp h elemType resType constVal).elems
        = [bitcast constVal (convertType elemType)]) := by
  have hEq : SplatOpConversion.convertSplatLikeOp h elemType resType constVal
      = ⟨⟨List.replicate (h.getElemsPerThread resType) (convertType elemType)⟩,
         List.replicate (h.getElemsPerThread resType)
           (bitcast constVal (convertType elemType))⟩ := by
    simp [SplatOpConversion.convertSplatLikeOp, getStructFromElements,
      LLVMStructType.getLiteral]
  rw [hEq]
  refine ⟨rfl, by simp, by simp, ?_, ?_, ?_⟩
  · intro x hx
    have hx2 := List.eq_of_mem_replicate hx
    subst hx2
    exact ⟨rfl, rfl⟩
  · intro t ht
    exact List.eq_of_mem_replicate ht
  · intro h1
    simp [h1]

/-- C4 at the concrete scenario: a result type with `elemsPerThread = 1`
gives a one-element register group. -/
theorem splat_replicates_scalar_witness :
    (SplatOpConversion.convertSplatLikeOp (sampleHelpers 1) Ty.bf16
        (sampleTensor Ty.bf16 sampleBlocked) (v 0 Ty.bf16)).elems
      = [bitcast (v 0 Ty.bf16) (Ty.integer 16)] :=
  (splat_replicates_scalar (sampleHelpers 1) Ty.bf16
    (sampleTensor Ty.bf16 sampleBlocked) (v 0 Ty.bf16)).2.2.2.2.2 rfl

/-- C5: the View / expand-dims rewrite succeeds and yields a register group
whose element sequence is the input's, in the same order and with the same
count. -/
theorem view_preserves_elements (h : Helpers) (resultTy : RankedTensorType)
    (src : StructValue) :
    (ViewLikeOpConversion.matchAndRewrite h resultTy src).status = LogicalResult.success ∧
    ∃ view, (ViewLikeOpConversion.matchAndRewrite h resultTy src).replacement = some view ∧
      getElementsFromStruct view = getElementsFromStruct src ∧
      (getElementsFromStruct view).length = (getElementsFromStruct src).length ∧
      ∀ i, (getElementsFromStruct view).get? i = (getElementsFromStruct src).get? i := by
  refine ⟨rfl, _, rfl, rfl, rfl, fun _ => rfl⟩

/-! ## Type lowering -/

/-- C6: for every tensor type whose descriptor is Blocked, Sliced or MMA, type
lowering returns a register group with exactly `elemsPerThread(type)` slots,
every slot being the lowered element type. -/
theorem lower_register_layout (h : Helpers) (type : RankedTensorType)
    (layout : Attribute) (hEnc : type.encoding = some layout)
    (hKind : layout.isaBlockedEncodingAttr = true ∨ layout.isaSliceEncodingAttr = true ∨
      layout.isaMmaEncodingAttr = true) :
    ∃ group, convertTritonTensorType h type = Run.done (some group) ∧
      group.body = List.replicate (h.getElemsPerThread type) (convertType type.elementType) ∧
      group.body.length = h.getElemsPerThread type ∧
      ∀ t ∈ group.body, t = convertType type.elementType := by
  have hReg : isRegisterLayout type.encoding = true := by
    rw [hEnc]
    rcases hKind with hk | hk | hk <;> simp [isRegisterLayout, hk]
  refine ⟨⟨List.replicate (h.getElemsPerThread type) (convertType type.elementType)⟩,
    ?_, rfl, by simp, ?_⟩
  · simp [convertTritonTensorType, hReg, LLVMStructType.getLiteral]
  · intro t ht
    exact List.eq_of_mem_replicate ht

/-- C6 at a concrete input: a Sliced bfloat16 tensor with `elemsPerThread = 3`
lowers to three `i16` slots. -/
theorem lower_register_layout_witness :
    ∃ group, convertTritonTensorType (sampleHelpers 3)
        (sampleTensor Ty.bf16 (Attribute.slice 0 sampleBlocked)) = Run.done (some group) ∧
      group.body = List.replicate 3 (Ty.integer 16) ∧
      group.body.length = 3 ∧
      ∀ t ∈ group.body, t = Ty.integer 16 :=
  lower_register_layout (sampleHelpers 3)
    (sampleTensor Ty.bf16 (Attribute.slice 0 sampleBlocked))
    (Attribute.slice 0 sampleBlocked) rfl (Or.inr (Or.inl rfl))

/-- C7: for every tensor type of rank `r` whose descriptor is Shared, type
lowering returns a flat record of exactly `1 + 2 * r` slots: first a pointer
to the lowered element type in address space 3, then `2 * r` slots that are
all the 32-bit integer type. -/
theorem lower_shared_layout (h : Helpers) (type : RankedTensorType)
    (vec perPhase maxPhase : Nat) (order : List Nat)
    (hEnc : type.encoding = some (Attribute.shared vec perPhase maxPhase order)) :
    ∃ record, convertTritonTensorType h type = Run.done (some record) ∧
      record.body = Ty.llvmPtr (convertType type.elementType) 3
        :: List.replicate (2 * type.getRank) (Ty.integer 32) ∧
      record.body.length = 1 + 2 * type.getRank ∧
      record.body.head? = some (Ty.llvmPtr (convertType type.elementType) 3) ∧
      ∀ t ∈ record.body.tail, t = Ty.integer 32 := by
  refine ⟨⟨Ty.llvmPtr (convertType type.elementType) 3
        :: List.replicate (2 * type.getRank) (Ty.integer 32)⟩, ?_, rfl, ?_, rfl, ?_⟩
  · simp [convertTritonTensorType, hEnc, isRegisterLayout,
      Attribute.isaBlockedEncodingAttr, Attribute.isaSliceEncodingAttr,
      Attribute.isaMmaEncodingAttr, pushI32_eq_append, LLVMStructType.getLiteral,
      Nat.mul_comm]
  · simp [Nat.add_comm]
  · intro t ht
    exact List.eq_of_mem_replicate ht

/-- C7 at a concrete input: a rank-2 Shared float8 tensor lowers to five
slots, a pointer to `i8` in address space 3 followed by four `i32`. -/
theorem lower_shared_layout_witness :
    ∃ record, convertTritonTensorType (sampleHelpers 0)
        (sampleTensor Ty.float8 (Attribute.shared 1 1 1 [1, 0])) = Run.done (some record) ∧
      record.body = Ty.llvmPtr (Ty.integer 8) 3 :: List.replicate 4 (Ty.integer 32) ∧
      record.body.length = 5 ∧
      record.body.head? = some (Ty.llvmPtr (Ty.integer 8) 3) ∧
      ∀ t ∈ record.body.tail, t = Ty.integer 32 :=
  lower_shared_layout (sampleHelpers 0)
    (sampleTensor Ty.float8 (Attribute.shared 1 1 1 [1, 0])) 1 1 1 [1, 0] rfl

/-- C8 (as stated, refuted): type lowering can lower DotOperand and Shared
result types, yet the rules declare `elemsPerThread` slots of the lowered
element type for them. For a DotOperand (Blocked parent) tensor of 16-bit
floats, lowering gives `f32` slots while Splat and Concatenation declare `f16`
slots; for a rank-2 Shared tensor, lowering gives a pointer and four `i32`
while View declares `f16` slots. -/
theorem rules_differ_from_lowering_on_dot_operand_and_shared :
    convertTritonTensorType (sampleHelpers 2)
        (sampleTensor (Ty.float 16) (Attribute.dotOperand 0 sampleBlocked))
      = Run.done (some ⟨[Ty.float 32, Ty.float 32]⟩) ∧
    (SplatOpConversion.matchAndRewrite (sampleHelpers 2)
        (sampleTensor (Ty.float 16) (Attribute.dotOperand 0 sampleBlocked))
        (v 0 (Ty.float 16))).replacement.map StructValue.type
      = some ⟨[Ty.float 16, Ty.float 16]⟩ ∧
    (CatOpConversion.matchAndRewrite (sampleHelpers 2)
        (sampleTensor (Ty.float 16) (Attribute.dotOperand 0 sampleBlocked))
        ⟨⟨[Ty.float 16]⟩, [v 0 (Ty.float 16)]⟩
        ⟨⟨[Ty.float 16]⟩, [v 1 (Ty.float 16)]⟩).replacement.map StructValue.type
      = some ⟨[Ty.float 16, Ty.float 16]⟩ ∧
    convertTritonTensorType (sampleHelpers 2)
        (sampleTensor (Ty.float 16) (Attribute.shared 1 1 1 [1, 0]))
      = Run.done (some ⟨[Ty.llvmPtr (Ty.float 16) 3, Ty.integer 32, Ty.integer 32,
          Ty.integer 32, Ty.integer 32]⟩) ∧
    (ViewLikeOpConversion.matchAndRewrite (sampleHelpers 2)
        (sampleTensor (Ty.float 16) (Attribute.shared 1 1 1 [1, 0]))
        ⟨⟨[Ty.float 16, Ty.float 16]⟩,
          [v 0 (Ty.float 16), v 1 (Ty.float 16)]⟩).replacement.map StructValue.type
      = some ⟨[Ty.float 16, Ty.float 16]⟩ := by
  refine ⟨?_, ?_, ?_, ?_, ?_⟩ <;> decide

/-- C8 (amended): for every result tensor type whose descriptor is Blocked,
Sliced or MMA, the register-group type declared by the Concatenation rule, by
the View / expand-dims rule, and by the Splat rule (when the scalar's type is
the result's element type, or its lowering as in `SplatOp`) equals the type
returned by type lowering for the result type. -/
theorem rules_declare_lowered_type (h : Helpers) (resultTy : RankedTensorType)
    (layout : Attribute) (hEnc : resultTy.encoding = some layout)
    (hKind : layout.isaBlockedEncodingAttr = true ∨ layout.isaSliceEncodingAttr = true ∨
      layout.isaMmaEncodingAttr = true) :
    ∃ group, convertTritonTensorType h resultTy = Run.done (some group) ∧
      (∀ lhs rhs, (CatOpConversion.matchAndRewrite h resultTy lhs rhs).replacement.map
        StructValue.type = some group) ∧
      (∀ src, (ViewLikeOpConversion.matchAndRewrite h resultTy src).replacement.map
        StructValue.type = some group) ∧
      (∀ constVal, (SplatOpConversion.convertSplatLikeOp h resultTy.elementType resultTy
        constVal).type = group) ∧
      (∀ src : Value, src.getType = convertType resultTy.elementType →
        (SplatOpConversion.matchAndRewrite h resultTy src).replacement.map
          StructValue.type = some group) := by
  have hReg : isRegisterLayout resultTy.encoding = true := by
    rw [hEnc]
    rcases hKind with hk | hk | hk <;> simp [isRegisterLayout, hk]
  refine ⟨⟨List.replicate (h.getElemsPerThread resultTy)
    (convertType resultTy.elementType)⟩, ?_, ?_, ?_, ?_, ?_⟩
  · simp [convertTritonTensorType, hReg, LLVMStructType.getLiteral]
  · intro lhs rhs
    rfl
  · intro src
    rfl
  · intro constVal
    simp [SplatOpConversion.convertSplatLikeOp, getStructFromElements,
      LLVMStructType.getLiteral]
  · intro src hsrc
    simp [SplatOpConversion.matchAndRewrite, SplatOpConversion.convertSplatLikeOp,
      getStructFromElements, LLVMStructType.getLiteral, hsrc, convertType_idem]

/-- C8 (amended) at a concrete input: for an MMA bfloat16 result type with
`elemsPerThread = 2`, lowering and all three rules give two `i16` slots. -/
theorem rules_declare_lowered_type_witness :
    ∃ group, convertTritonTensorType (sampleHelpers 2)
        (sampleTensor Ty.bf16 (Attribute.mma 2 0 [1, 1])) = Run.done (some group) ∧
      (∀ lhs rhs, (CatOpConversion.matchAndRewrite (sampleHelpers 2)
        (sampleTensor Ty.bf16 (Attribute.mma 2 0 [1, 1])) lhs rhs).replacement.map
        StructValue.type = some group) ∧
      (∀ src, (ViewLikeOpConversion.matchAndRewrite (sampleHelpers 2)
        (sampleTensor Ty.bf16 (Attribute.mma 2 0 [1, 1])) src).replacement.map
        StructValue.type = some group) ∧
      (∀ constVal, (SplatOpConversion.convertSplatLikeOp (sampleHelpers 2) Ty.bf16
        (sampleTensor Ty.bf16 (Attribute.mma 2 0 [1, 1])) constVal).type = group) ∧
      (∀ src : Value, src.getType = Ty.integer 16 →
        (SplatOpConversion.matchAndRewrite (sampleHelpers 2)
          (sampleTensor Ty.bf16 (Attribute.mma 2 0 [1, 1])) src).replacement.map
          StructValue.type = some group) :=
  rules_declare_lowered_type (sampleHelpers 2)
    (sampleTensor Ty.bf16 (Attribute.mma 2 0 [1, 1])) (Attribute.mma 2 0 [1, 1]) rfl
    (Or.inr (Or.inr rfl))

/-- C9: for every tensor type whose descriptor is a DotOperand with a Blocked
parent, type lowering returns a register group whose length is the FMA
operand-layout count of the shape and the descriptor and whose every slot is
the 32-bit float type, whatever the element type. -/
theorem lower_dot_operand_blocked (h : Helpers) (type : RankedTensorType) (opIdx : Nat)
    (sizePerThread threadsPerWarp warpsPerCTA order : List Nat)
    (hEnc : type.encoding = some (Attribute.dotOperand opIdx
      (Attribute.blocked sizePerThread threadsPerWarp warpsPerCTA order))) :
    ∃ group, convertTritonTensorType h type = Run.done (some group) ∧
      group.body = List.replicate
        (h.fmaGetNumElemsPerThread type.shape (Attribute.dotOperand opIdx
          (Attribute.blocked sizePerThread threadsPerWarp warpsPerCTA order)))
        (Ty.float 32) ∧
      group.body.length = h.fmaGetNumElemsPerThread type.shape (Attribute.dotOperand opIdx
          (Attribute.blocked sizePerThread threadsPerWarp warpsPerCTA order)) ∧
      ∀ t ∈ group.body, t = Ty.float 32 := by
  refine ⟨⟨List.replicate
        (h.fmaGetNumElemsPerThread type.shape (Attribute.dotOperand opIdx
          (Attribute.blocked sizePerThread threadsPerWarp warpsPerCTA order)))
        (Ty.float 32)⟩, ?_, rfl, by simp, ?_⟩
  · simp [convertTritonTensorType, hEnc, isRegisterLayout,
      Attribute.isaBlockedEncodingAttr, Attribute.isaSliceEncodingAttr,
      Attribute.isaMmaEncodingAttr, LLVMStructType.getLiteral, f32Ty]
  · intro t ht
    exact List.eq_of_mem_replicate ht

/-- C9 at a concrete input: a DotOperand (Blocked parent) tensor of 16-bit
floats with FMA count 4 lowers to four `f32` slots. -/
theorem lower_dot_operand_blocked_witness :
    ∃ group, convertTritonTensorType (sampleHelpers 4)
        (sampleTensor (Ty.float 16) (Attribute.dotOperand 0 sampleBlocked))
          = Run.done (some group) ∧
      group.body = List.replicate 4 (Ty.float 32) ∧
      group.body.length = 4 ∧
      ∀ t ∈ group.body, t = Ty.float 32 :=
  lower_dot_operand_blocked (sampleHelpers 4)
    (sampleTensor (Ty.float 16) (Attribute.dotOperand 0 sampleBlocked)) 0
    [1, 1] [4, 8] [1, 1] [1, 0] rfl

/-- The Ampere slot type for a lowered element type of supported width. -/
theorem ampereTargetTy_of_width (elemTy : Ty) (w : Nat)
    (hw : getIntOrFloatBitWidth elemTy = some w) (hsupp : w = 32 ∨ w = 16 ∨ w = 8) :
    ∃ slot, ampereTargetTy elemTy = Run.done slot ∧
      (w = 32 → slot = Ty.vector elemTy 1) ∧
      (w = 16 → isaIntegerType elemTy = false → slot = Ty.vector elemTy 2) ∧
      (w = 8 → isaIntegerType elemTy = false → slot = Ty.vector elemTy 4) ∧
      (isaIntegerType elemTy = true → (w = 8 ∨ w = 16) → slot = Ty.integer 32) := by
  rcases hsupp with rfl | rfl | rfl
  · refine ⟨Ty.vector elemTy 1, ?_, fun _ => rfl, ?_, ?_, ?_⟩
    · simp [ampereTargetTy, hw, targetTyMap, List.lookup, vec_ty]
    · intro hc; omega
    · intro hc; omega
    · intro _ hc; omega
  · cases hInt : isaIntegerType elemTy
    · refine ⟨Ty.vector elemTy 2, ?_, ?_, fun _ _ => rfl, ?_, ?_⟩
      · simp [ampereTargetTy, hw, targetTyMap, List.lookup, vec_ty, hInt]
      · intro hc; omega
      · intro hc; omega
      · intro hc; cases hc
    · refine ⟨Ty.integer 32, ?_, ?_, ?_, ?_, fun _ _ => rfl⟩
      · simp [ampereTargetTy, hw, targetTyMap, List.lookup, vec_ty, hInt]
      · intro hc; omega
      · intro _ hc; cases hc
      · intro hc; omega
  · cases hInt : isaIntegerType elemTy
    · refine ⟨Ty.vector elemTy 4, ?_, ?_, ?_, fun _ _ => rfl, ?_⟩
      · simp [ampereTargetTy, hw, targetTyMap, List.lookup, vec_ty, hInt]
      · intro hc; omega
      · intro hc; omega
      · intro hc; cases hc
    · refine ⟨Ty.integer 32, ?_, ?_, ?_, ?_, fun _ _ => rfl⟩
      · simp [ampereTargetTy, hw, targetTyMap, List.lookup, vec_ty, hInt]
      · intro hc; omega
      · intro hc; omega
      · intro _ hc; cases hc

/-- C10: for every tensor type whose descriptor is a DotOperand with an Ampere
MMA parent and operand index 0 or 1 (the warps-per-CTA entry of that index
being present), and whose lowered element type `E` has width 32, 16 or 8, type
lowering returns a register group of the operand-specific length whose every
slot is: a 1-wide vector of `E` when `E` has 32 bits, a 2-wide vector of `E`
when `E` has 16 bits and is not an integer, a 4-wide vector of `E` when `E`
has 8 bits and is not an integer, and `i32` when `E` is an 8- or 16-bit
integer. -/
theorem lower_dot_operand_ampere (h : Helpers) (type : RankedTensorType)
    (opIdx versionMajor versionMinor : Nat) (wpt : List Nat) (w : Nat)
    (hEnc : type.encoding = some (Attribute.dotOperand opIdx
      (Attribute.mma versionMajor versionMinor wpt)))
    (hAmpere : (Attribute.mma versionMajor versionMinor wpt).isAmpere = true)
    (hIdx : opIdx = 0 ∨ opIdx = 1) (hWpt : opIdx < wpt.length)
    (hw : getIntOrFloatBitWidth (convertType type.elementType) = some w)
    (hsupp : w = 32 ∨ w = 16 ∨ w = 8) :
    ∃ slot, convertTritonTensorType h type = Run.done (some ⟨List.replicate
        (if opIdx = 0 then h.getANumElemsPerThread type (wpt.getD 0 0)
          else h.getBNumElemsPerThread type (wpt.getD 1 0)) slot⟩) ∧
      (w = 32 → slot = Ty.vector (convertType type.elementType) 1) ∧
      (w = 16 → isaIntegerType (convertType type.elementType) = false →
        slot = Ty.vector (convertType type.elementType) 2) ∧
      (w = 8 → isaIntegerType (convertType type.elementType) = false →
        slot = Ty.vector (convertType type.elementType) 4) ∧
      (isaIntegerType (convertType type.elementType) = true → (w = 8 ∨ w = 16) →
        slot = Ty.integer 32) := by
  obtain ⟨slot, hslot, hspec⟩ :=
    ampereTargetTy_of_width (convertType type.elementType) w hw hsupp
  refine ⟨slot, ?_, hspec⟩
  rcases hIdx with rfl | rfl
  · obtain ⟨w0, rest, rfl⟩ : ∃ w0 rest, wpt = w0 :: rest := by
      cases wpt with
      | nil => simp at hWpt
      | cons a l => exact ⟨a, l, rfl⟩
    simp [convertTritonTensorType, hEnc, isRegisterLayout,
      Attribute.isaBlockedEncodingAttr, Attribute.isaSliceEncodingAttr,
      Attribute.isaMmaEncodingAttr, mmaParentPart, hAmpere, hslot, Run.bind, indexAt,
      struct_ty, LLVMStructType.getLiteral]
  · obtain ⟨w0, w1, rest, rfl⟩ : ∃ w0 w1 rest, wpt = w0 :: w1 :: rest := by
      match wpt, hWpt with
      | a :: b :: l, _ => exact ⟨a, b, l, rfl⟩
    simp [convertTritonTensorType, hEnc, isRegisterLayout,
      Attribute.isaBlockedEncodingAttr, Attribute.isaSliceEncodingAttr,
      Attribute.isaMmaEncodingAttr, mmaParentPart, hAmpere, hslot, Run.bind, indexAt,
      struct_ty, LLVMStructType.getLiteral]

/-- C10 at a concrete input: operand 1 of an Ampere MMA with an 8-bit
floating-point element lowers to slots that are 4-wide vectors of it. -/
theorem lower_dot_operand_ampere_witness :
    ∃ slot, convertTritonTensorType (sampleHelpers 2)
        (sampleTensor (Ty.float 8) (Attribute.dotOperand 1 (Attribute.mma 2 0 [2, 2])))
        = Run.done (some ⟨List.replicate 2 slot⟩) ∧
      slot = Ty.vector (Ty.float 8) 4 :=
  match lower_dot_operand_ampere (sampleHelpers 2)
      (sampleTensor (Ty.float 8) (Attribute.dotOperand 1 (Attribute.mma 2 0 [2, 2])))
      1 2 0 [2, 2] 8 rfl rfl (Or.inr rfl) (by decide) rfl (Or.inr (Or.inr rfl)) with
  | ⟨slot, hrun, _, _, h8, _⟩ => ⟨slot, hrun, h8 rfl rfl⟩

/-- A DotOperand type with an MMA parent is lowered by the MMA-parent branch. -/
theorem convert_dot_operand_mma (h : Helpers) (type : RankedTensorType)
    (opIdx versionMajor versionMinor : Nat) (wpt : List Nat)
    (hEnc : type.encoding = some (Attribute.dotOperand opIdx
      (Attribute.mma versionMajor versionMinor wpt))) :
    convertTritonTensorType h type
      = mmaParentPart h type (Attribute.mma versionMajor versionMinor wpt) wpt opIdx := by
  simp [convertTritonTensorType, hEnc, isRegisterLayout,
    Attribute.isaBlockedEncodingAttr, Attribute.isaSliceEncodingAttr,
    Attribute.isaMmaEncodingAttr]

/-- The Ampere slot-type computation stops at the assertion for a width that
is not in the table. -/
theorem ampereTargetTy_abort (elemTy : Ty) (w : Nat)
    (hw : getIntOrFloatBitWidth elemTy = some w) (h8 : w ≠ 8) (h16 : w ≠ 16)
    (h32 : w ≠ 32) : ampereTargetTy elemTy = Run.abort := by
  have h32b : (w == 32) = false := by simpa using h32
  have h16b : (w == 16) = false := by simpa using h16
  have h8b : (w == 8) = false := by simpa using h8
  simp [ampereTargetTy, hw, targetTyMap, List.lookup, h32b, h16b, h8b]

/-- The Ampere part of the MMA-parent branch once the slot type is known and
the operand index is 0 or 1 with its warps-per-CTA entry present. -/
theorem mmaParentPart_ampere (h : Helpers) (type : RankedTensorType)
    (versionMajor versionMinor : Nat) (wpt : List Nat) (opIdx : Nat) (slot : Ty)
    (hAmpere : (Attribute.mma versionMajor versionMinor wpt).isAmpere = true)
    (hslot : ampereTargetTy (convertType type.elementType) = Run.done slot)
    (hIdx : opIdx = 0 ∨ opIdx = 1) (hWpt : opIdx < wpt.length) :
    mmaParentPart h type (Attribute.mma versionMajor versionMinor wpt) wpt opIdx
      = Run.done (some ⟨List.replicate
          (if opIdx = 0 then h.getANumElemsPerThread type (wpt.getD 0 0)
            else h.getBNumElemsPerThread type (wpt.getD 1 0)) slot⟩) := by
  rcases hIdx with rfl | rfl
  · obtain ⟨w0, rest, rfl⟩ : ∃ w0 rest, wpt = w0 :: rest := by
      cases wpt with
      | nil => simp at hWpt
      | cons a l => exact ⟨a, l, rfl⟩
    simp [mmaParentPart, hAmpere, hslot, Run.bind, indexAt, struct_ty,
      LLVMStructType.getLiteral]
  · obtain ⟨w0, w1, rest, rfl⟩ : ∃ w0 w1 rest, wpt = w0 :: w1 :: rest := by
      match wpt, hWpt with
      | a :: b :: l, _ => exact ⟨a, b, l, rfl⟩
    simp [mmaParentPart, hAmpere, hslot, Run.bind, indexAt, struct_ty,
      LLVMStructType.getLiteral]

/-- C11 (as stated, refuted): for operand 0 of an Ampere MMA with 64-bit float
elements (a width outside the table), type lowering does not return a lowering
failure: it stops at the assertion `Unsupported element type`. -/
theorem lower_ampere_f64_aborts :
    convertTritonTensorType (sampleHelpers 2)
        (sampleTensor (Ty.float 64) (Attribute.dotOperand 0 (Attribute.mma 2 0 [2, 2])))
      = Run.abort ∧
    convertTritonTensorType (sampleHelpers 2)
        (sampleTensor (Ty.float 64) (Attribute.dotOperand 0 (Attribute.mma 2 0 [2, 2])))
      ≠ Run.done none := by
  constructor <;> decide

/-- C11 (amended): for every tensor type whose descriptor is a DotOperand with
an Ampere MMA parent and whose lowered element type has a bit-width other than
8, 16 or 32, type lowering stops at the assertion `Unsupported element type`;
it returns nothing, neither a representation nor a lowering failure. -/
theorem lower_ampere_unsupported_width_aborts (h : Helpers) (type : RankedTensorType)
    (opIdx versionMajor versionMinor : Nat) (wpt : List Nat) (w : Nat)
    (hEnc : type.encoding = some (Attribute.dotOperand opIdx
      (Attribute.mma versionMajor versionMinor wpt)))
    (hAmpere : (Attribute.mma versionMajor versionMinor wpt).isAmpere = true)
    (hw : getIntOrFloatBitWidth (convertType type.elementType) = some w)
    (h8 : w ≠ 8) (h16 : w ≠ 16) (h32 : w ≠ 32) :
    convertTritonTensorType h type = Run.abort ∧
    ∀ r, convertTritonTensorType h type ≠ Run.done r := by
  have hAbort : convertTritonTensorType h type = Run.abort := by
    rw [convert_dot_operand_mma h type opIdx versionMajor versionMinor wpt hEnc]
    simp [mmaParentPart, hAmpere, ampereTargetTy_abort _ w hw h8 h16 h32, Run.bind]
  refine ⟨hAbort, fun r hr => ?_⟩
  rw [hAbort] at hr
  cases hr

/-- C11 (amended) at a concrete input: operand 1 of an Ampere MMA with 64-bit
integer elements. -/
theorem lower_ampere_unsupported_width_aborts_witness :
    convertTritonTensorType (sampleHelpers 2)
        (sampleTensor (Ty.integer 64) (Attribute.dotOperand 1 (Attribute.mma 2 0 [2, 2])))
      = Run.abort ∧
    ∀ r, convertTritonTensorType (sampleHelpers 2)
        (sampleTensor (Ty.integer 64) (Attribute.dotOperand 1 (Attribute.mma 2 0 [2, 2])))
      ≠ Run.done r :=
  lower_ampere_unsupported_width_aborts (sampleHelpers 2)
    (sampleTensor (Ty.integer 64) (Attribute.dotOperand 1 (Attribute.mma 2 0 [2, 2])))
    1 2 0 [2, 2] 64 rfl rfl rfl (by decide) (by decide) (by decide)

/-- C12 (as stated, refuted): a DotOperand with an Ampere MMA parent, operand
index 2 and 64-bit float elements does not lower to a lowering failure: the
slot type is computed before the operand index is looked at, and the
assertion `Unsupported element type` stops the lowering. -/
theorem lower_bad_operand_index_can_abort :
    convertTritonTensorType (sampleHelpers 2)
        (sampleTensor (Ty.float 64) (Attribute.dotOperand 2 (Attribute.mma 2 0 [2, 2])))
      = Run.abort ∧
    convertTritonTensorType (sampleHelpers 2)
        (sampleTensor (Ty.float 64) (Attribute.dotOperand 2 (Attribute.mma 2 0 [2, 2])))
      ≠ Run.done none := by
  constructor <;> decide

/-- C12 (amended): type lowering returns a lowering failure (`llvm::None`) for
every tensor type that carries no descriptor, for every DotOperand whose MMA
parent is of neither hardware generation, and for every DotOperand with an MMA
parent whose operand index is not 0 or 1 provided that, when the parent is
Ampere, the lowered element type has bit-width 32, 16 or 8. -/
theorem lower_failure_cases (h : Helpers) (type : RankedTensorType)
    (hCase : type.encoding = none ∨
      ∃ opIdx versionMajor versionMinor wpt,
        type.encoding = some (Attribute.dotOperand opIdx
          (Attribute.mma versionMajor versionMinor wpt)) ∧
        (((Attribute.mma versionMajor versionMinor wpt).isAmpere = false ∧
          (Attribute.mma versionMajor versionMinor wpt).isVolta = false) ∨
         (opIdx ≠ 0 ∧ opIdx ≠ 1 ∧
          ((Attribute.mma versionMajor versionMinor wpt).isAmpere = true →
            ∃ w, getIntOrFloatBitWidth (convertType type.elementType) = some w ∧
              (w = 32 ∨ w = 16 ∨ w = 8))))) :
    convertTritonTensorType h type = Run.done none := by
  rcases hCase with hNone | ⟨opIdx, vMaj, vMin, wpt, hEnc, hSub⟩
  · simp [convertTritonTensorType, hNone, isRegisterLayout]
  · rw [convert_dot_operand_mma h type opIdx vMaj vMin wpt hEnc]
    rcases hSub with ⟨hA, hV⟩ | ⟨h0, h1, hW⟩
    · simp [mmaParentPart, voltaPart, hA, hV]
    · have hVolta : voltaPart h type (Attribute.mma vMaj vMin wpt) opIdx
          (convertType type.elementType) = Run.done none := by
        unfold voltaPart
        split
        · simp [h0, h1]
        · rfl
      cases hA : (Attribute.mma vMaj vMin wpt).isAmpere
      · simp [mmaParentPart, hA, hVolta]
      · obtain ⟨w, hw, hsupp⟩ := hW hA
        obtain ⟨slot, hslot, _⟩ :=
          ampereTargetTy_of_width (convertType type.elementType) w hw hsupp
        simp [mmaParentPart, hA, hslot, Run.bind, h0, h1, hVolta]

/-- C12 (amended) at a concrete input: a DotOperand with a Volta MMA parent
and operand index 2 lowers to a lowering failure. -/
theorem lower_failure_cases_witness :
    convertTritonTensorType (sampleHelpers 2)
        (sampleTensor (Ty.float 16) (Attribute.dotOperand 2 (Attribute.mma 1 0 [2, 2])))
      = Run.done none :=
  lower_failure_cases (sampleHelpers 2)
    (sampleTensor (Ty.float 16) (Attribute.dotOperand 2 (Attribute.mma 1 0 [2, 2])))
    (Or.inr ⟨2, 1, 0, [2, 2], rfl, Or.inr ⟨by decide, by decide, by decide⟩⟩)

/-- A list of length two is a pair. -/
theorem list_length_two {α : Type} (l : List α) (hl : l.length = 2) :
    ∃ a b, l = [a, b] := by
  match l, hl with
  | [a, b], _ => exact ⟨a, b, rfl⟩

/-- C13: for every rank-2 Shared-Memory Object, applying the Transpose rewrite
twice returns an object whose base, strides and offsets are those of the
original; likewise on the serialised operand, where both rewrites succeed. -/
theorem trans_involution (obj : SharedMemoryObject)
    (hs : obj.strides.length = 2) (ho : obj.offsets.length = 2) :
    (TransOpConversion.transpose obj).bind TransOpConversion.transpose = Run.done obj ∧
    ∃ mid, TransOpConversion.matchAndRewrite (getStructFromSharedMemoryObject obj)
        = Run.done ⟨LogicalResult.success, some mid⟩ ∧
      TransOpConversion.matchAndRewrite mid
        = Run.done ⟨LogicalResult.success, some (getStructFromSharedMemoryObject obj)⟩ := by
  obtain ⟨b, strides, offsets⟩ := obj
  obtain ⟨s0, s1, rfl⟩ := list_length_two strides hs
  obtain ⟨o0, o1, rfl⟩ := list_length_two offsets ho
  refine ⟨rfl, getStructFromSharedMemoryObject ⟨b, [s1, s0], [o1, o0]⟩, ?_, ?_⟩ <;>
    simp [TransOpConversion.matchAndRewrite, getSharedMemoryObjectFromStruct,
      getStructFromSharedMemoryObject, getElementsFromStruct, getStructFromElements,
      TransOpConversion.transpose, Run.bind, indexAt]

/-- C13 at a concrete input: transposing twice the object with strides
`[v 1, v 2]` and offsets `[v 3, v 4]` gives it back. -/
theorem trans_involution_witness :
    (TransOpConversion.transpose
        ⟨v 0 (Ty.llvmPtr (Ty.float 16) 3), [v 1 (Ty.integer 32), v 2 (Ty.integer 32)],
          [v 3 (Ty.integer 32), v 4 (Ty.integer 32)]⟩).bind TransOpConversion.transpose
      = Run.done ⟨v 0 (Ty.llvmPtr (Ty.float 16) 3),
          [v 1 (Ty.integer 32), v 2 (Ty.integer 32)],
          [v 3 (Ty.integer 32), v 4 (Ty.integer 32)]⟩ :=
  (trans_involution
    ⟨v 0 (Ty.llvmPtr (Ty.float 16) 3), [v 1 (Ty.integer 32), v 2 (Ty.integer 32)],
      [v 3 (Ty.integer 32), v 4 (Ty.integer 32)]⟩ rfl rfl).1

/-- C14: element-type lowering stores the 8-bit float type as `i8` and
bfloat16 as `i16`; consequently a Blocked, Sliced or MMA tensor of bfloat16
(resp. float8) lowers to a register group of `elemsPerThread` slots that are
all `i16` (resp. `i8`). -/
theorem narrow_floats_stored_as_integers (h : Helpers) (type : RankedTensorType)
    (layout : Attribute) (hEnc : type.encoding = some layout)
    (hKind : layout.isaBlockedEncodingAttr = true ∨ layout.isaSliceEncodingAttr = true ∨
      layout.isaMmaEncodingAttr = true) :
    convertType Ty.float8 = Ty.integer 8 ∧
    convertType Ty.bf16 = Ty.integer 16 ∧
    (type.elementType = Ty.bf16 →
      convertTritonTensorType h type = Run.done (some
        ⟨List.replicate (h.getElemsPerThread type) (Ty.integer 16)⟩)) ∧
    (type.elementType = Ty.float8 →
      convertTritonTensorType h type = Run.done (some
        ⟨List.replicate (h.getElemsPerThread type) (Ty.integer 8)⟩)) := by
  have hReg : isRegisterLayout type.encoding = true := by
    rw [hEnc]
    rcases hKind with hk | hk | hk <;> simp [isRegisterLayout, hk]
  refine ⟨rfl, rfl, ?_, ?_⟩
  · intro hT
    simp [convertTritonTensorType, hReg, LLVMStructType.getLiteral, hT, convertType]
  · intro hT
    simp [convertTritonTensorType, hReg, LLVMStructType.getLiteral, hT, convertType]

/-- C14 at a concrete input: a Blocked float8 tensor with `elemsPerThread = 2`
lowers to two `i8` slots. -/
theorem narrow_floats_stored_as_integers_witness :
    convertTritonTensorType (sampleHelpers 2) (sampleTensor Ty.float8 sampleBlocked)
      = Run.done (some ⟨[Ty.integer 8, Ty.integer 8]⟩) :=
  (narrow_floats_stored_as_integers (sampleHelpers 2) (sampleTensor Ty.float8 sampleBlocked)
    sampleBlocked rfl (Or.inl rfl)).2.2.2 rfl

/-- C15: the constant-splat rewrite agrees with the Splat rewrite. For a
splat attribute whose element type is bfloat16, a float or an integer, it
succeeds and replaces the op by exactly what `convertSplatLikeOp` produces for
the constant scalar and the same result type: `elemsPerThread` slots, all
holding the same bitcast constant. For a non-splat attribute, or an element
type that is none of those, it reports failure and replaces nothing. -/
theorem constant_splat_agrees_with_splat (h : Helpers) (q : TypeQueries)
    (opType : RankedTensorType) :
    (∀ elemType rawValue, (elemType.isBF16 || q.isFloat elemType) = true →
      ArithConstantSplatOpConversion.matchAndRewrite h q opType
          (ArithValueAttr.splatElements elemType rawValue)
        = ⟨LogicalResult.success, some (SplatOpConversion.convertSplatLikeOp h elemType opType
            (Value.constant elemType (ConstAttr.floatAttr rawValue)))⟩ ∧
      SplatOpConversion.convertSplatLikeOp h elemType opType
          (Value.constant elemType (ConstAttr.floatAttr rawValue))
        = ⟨⟨List.replicate (h.getElemsPerThread opType) (convertType elemType)⟩,
           List.replicate (h.getElemsPerThread opType)
             (bitcast (Value.constant elemType (ConstAttr.floatAttr rawValue))
               (convertType elemType))⟩) ∧
    (∀ elemType rawValue, (elemType.isBF16 || q.isFloat elemType) = false →
      q.isInt elemType = true →
      ArithConstantSplatOpConversion.matchAndRewrite h q opType
          (ArithValueAttr.splatElements elemType rawValue)
        = ⟨LogicalResult.success, some (SplatOpConversion.convertSplatLikeOp h elemType opType
            (Value.constant elemType (ConstAttr.integerAttr rawValue)))⟩ ∧
      SplatOpConversion.convertSplatLikeOp h elemType opType
          (Value.constant elemType (ConstAttr.integerAttr rawValue))
        = ⟨⟨List.replicate (h.getElemsPerThread opType) (convertType elemType)⟩,
           List.replicate (h.getElemsPerThread opType)
             (bitcast (Value.constant elemType (ConstAttr.integerAttr rawValue))
               (convertType elemType))⟩) ∧
    (∀ elemType rawValue, (elemType.isBF16 || q.isFloat elemType) = false →
      q.isInt elemType = false →
      ArithConstantSplatOpConversion.matchAndRewrite h q opType
          (ArithValueAttr.splatElements elemType rawValue)
        = ⟨LogicalResult.failure, none⟩) ∧
    (∀ tag, ArithConstantSplatOpConversion.matchAndRewrite h q opType
        (ArithValueAttr.nonSplat tag) = ⟨LogicalResult.failure, none⟩) := by
  have hSplat : ∀ (elemType : Ty) (c : Value),
      SplatOpConversion.convertSplatLikeOp h elemType opType c
        = ⟨⟨List.replicate (h.getElemsPerThread opType) (convertType elemType)⟩,
           List.replicate (h.getElemsPerThread opType)
             (bitcast c (convertType elemType))⟩ := by
    intro elemType c
    simp [SplatOpConversion.convertSplatLikeOp, getStructFromElements,
      LLVMStructType.getLiteral]
  refine ⟨?_, ?_, ?_, ?_⟩
  · intro elemType rawValue hF
    refine ⟨?_, hSplat _ _⟩
    simp only [ArithConstantSplatOpConversion.matchAndRewrite, hF, if_true]
  · intro elemType rawValue hF hI
    refine ⟨?_, hSplat _ _⟩
    simp [ArithConstantSplatOpConversion.matchAndRewrite, hF, hI]
  · intro elemType rawValue hF hI
    simp [ArithConstantSplatOpConversion.matchAndRewrite, hF, hI]
  · intro tag
    rfl

/-- C15 at a concrete input: a bfloat16 splat constant under a result type
with `elemsPerThread = 2` becomes two copies of the constant bitcast to `i16`;
a non-splat attribute is rejected. -/
theorem constant_splat_agrees_with_splat_witness :
    ArithConstantSplatOpConversion.matchAndRewrite (sampleHelpers 2) sampleTypeQueries
        (sampleTensor Ty.bf16 sampleBlocked) (ArithValueAttr.splatElements Ty.bf16 7)
      = ⟨LogicalResult.success, some ⟨⟨[Ty.integer 16, Ty.integer 16]⟩,
          [bitcast (Value.constant Ty.bf16 (ConstAttr.floatAttr 7)) (Ty.integer 16),
           bitcast (Value.constant Ty.bf16 (ConstAttr.floatAttr 7)) (Ty.integer 16)]⟩⟩ ∧
    ArithConstantSplatOpConversion.matchAndRewrite (sampleHelpers 2) sampleTypeQueries
        (sampleTensor Ty.bf16 sampleBlocked) (ArithValueAttr.nonSplat 0)
      = ⟨LogicalResult.failure, none⟩ :=
  ⟨((constant_splat_agrees_with_splat (sampleHelpers 2) sampleTypeQueries
      (sampleTensor Ty.bf16 sampleBlocked)).1 Ty.bf16 7 rfl).1,
   (constant_splat_agrees_with_splat (sampleHelpers 2) sampleTypeQueries
      (sampleTensor Ty.bf16 sampleBlocked)).2.2.2 0⟩

/-- C16: for every tensor type whose descriptor is a DotOperand with a Volta
MMA parent, type lowering returns a register group whose every slot is a
2-wide vector of the lowered element type and whose length is, for operand
index 0, `numElemsPerThreadA(shape, isARow, isAVec4, AParam.vec)` and, for
operand index 1, `numElemsPerThreadB(shape, isBRow, isBVec4, BParam.vec)`,
the flags being decoded from the parent's layout state. -/
theorem lower_dot_operand_volta (h : Helpers) (type : RankedTensorType)
    (opIdx versionMajor versionMinor : Nat) (wpt : List Nat)
    (hEnc : type.encoding = some (Attribute.dotOperand opIdx
      (Attribute.mma versionMajor versionMinor wpt)))
    (hVolta : (Attribute.mma versionMajor versionMinor wpt).isVolta = true) :
    (opIdx = 0 → convertTritonTensorType h type = Run.done (some ⟨List.replicate
      (h.numElemsPerThreadA (Attribute.mma versionMajor versionMinor wpt) type.shape
        (h.decodeVoltaLayoutStates (Attribute.mma versionMajor versionMinor wpt)).1
        (h.decodeVoltaLayoutStates (Attribute.mma versionMajor versionMinor wpt)).2.2.1
        (h.aParamVec
          (h.decodeVoltaLayoutStates (Attribute.mma versionMajor versionMinor wpt)).1
          (h.decodeVoltaLayoutStates (Attribute.mma versionMajor versionMinor wpt)).2.2.1))
      (Ty.vector (convertType type.elementType) 2)⟩)) ∧
    (opIdx = 1 → convertTritonTensorType h type = Run.done (some ⟨List.replicate
      (h.numElemsPerThreadB (Attribute.mma versionMajor versionMinor wpt) type.shape
        (h.decodeVoltaLayoutStates (Attribute.mma versionMajor versionMinor wpt)).2.1
        (h.decodeVoltaLayoutStates (Attribute.mma versionMajor versionMinor wpt)).2.2.2.1
        (h.bParamVec
          (h.decodeVoltaLayoutStates (Attribute.mma versionMajor versionMinor wpt)).2.1
          (h.decodeVoltaLayoutStates (Attribute.mma versionMajor versionMinor wpt)).2.2.2.1))
      (Ty.vector (convertType type.elementType) 2)⟩)) := by
  have hMajor : versionMajor = 1 := by simpa [Attribute.isVolta] using hVolta
  subst hMajor
  rw [convert_dot_operand_mma h type opIdx 1 versionMinor wpt hEnc]
  rcases hd : h.decodeVoltaLayoutStates (Attribute.mma 1 versionMinor wpt) with
    ⟨isARow, isBRow, isAVec4, isBVec4, mmaId⟩
  constructor
  · intro h0
    subst h0
    simp [mmaParentPart, voltaPart, Attribute.isAmpere, Attribute.isVolta, hd, struct_ty,
      LLVMStructType.getLiteral, vec_ty]
  · intro h1
    subst h1
    simp [mmaParentPart, voltaPart, Attribute.isAmpere, Attribute.isVolta, hd, struct_ty,
      LLVMStructType.getLiteral, vec_ty]

/-- C16 at a concrete input: operand 0 of a Volta MMA with 16-bit float
elements and count 4 lowers to four 2-wide vectors of `f16`. -/
theorem lower_dot_operand_volta_witness :
    convertTritonTensorType (sampleHelpers 4)
        (sampleTensor (Ty.float 16) (Attribute.dotOperand 0 (Attribute.mma 1 0 [2, 2])))
      = Run.done (some ⟨List.replicate 4 (Ty.vector (Ty.float 16) 2)⟩) :=
  (lower_dot_operand_volta (sampleHelpers 4)
    (sampleTensor (Ty.float 16) (Attribute.dotOperand 0 (Attribute.mma 1 0 [2, 2])))
    0 1 0 [2, 2] rfl rfl).1 rfl

/-- C17: for every Blocked descriptor and every tensor shape, `shapePerCTA`
has one entry per dimension of the shape, and in each dimension `d` (where
the descriptor has entries `s`, `t`, `w` and the shape has the non-negative
extent `e`) it equals `min (s * t * w) e`; hence it never exceeds the extent
and equals the extent whenever the extent is at most the natural coverage. -/
theorem shapePerCTA_blocked_is_capped_product
    (sizePerThread threadsPerWarp warpsPerCTA order : List Nat) (tensorShape : List Int)
    (d s t w : Nat) (e : Int)
    (hs : sizePerThread[d]? = some s) (ht : threadsPerWarp[d]? = some t)
    (hw : warpsPerCTA[d]? = some w) (he : tensorShape[d]? = some e) (hpos : 0 ≤ e) :
    ∃ shape, getShapePerCTA (Attribute.blocked sizePerThread threadsPerWarp warpsPerCTA order)
        tensorShape = some shape ∧
      shape.length = tensorShape.length ∧
      shape[d]? = some (min (s * t * w) e.toNat) ∧
      ((min (s * t * w) e.toNat : Nat) : Int) ≤ e ∧
      (e ≤ ((s * t * w : Nat) : Int) → ((min (s * t * w) e.toNat : Nat) : Int) = e) := by
  have hdlt : d < tensorShape.length := by
    rcases List.getElem?_eq_some_iff.mp he with ⟨hlt, _⟩
    exact hlt
  refine ⟨_, rfl, by simp, ?_, ?_, ?_⟩
  · simp [List.getElem?_map, List.getElem?_range hdlt, List.getD_eq_getElem?_getD,
      hs, ht, hw, he]
  · omega
  · intro hle
    omega

/-- C17 at the concrete scenario: per-thread run `[1,1]`, threads `[4,8]`,
warps `[1,1]` on shape `[4,8]`, in dimension 1, gives `min 8 8 = 8`. -/
theorem shapePerCTA_blocked_is_capped_product_witness :
    ∃ shape, getShapePerCTA sampleBlocked [4, 8] = some shape ∧
      shape.length = 2 ∧
      shape[1]? = some (min (1 * 8 * 1) 8) ∧
      ((min (1 * 8 * 1) 8 : Nat) : Int) ≤ 8 ∧
      ((8 : Int) ≤ ((1 * 8 * 1 : Nat) : Int) → ((min (1 * 8 * 1) 8 : Nat) : Int) = 8) :=
  shapePerCTA_blocked_is_capped_product [1, 1] [4, 8] [1, 1] [1, 0] [4, 8] 1 1 8 1 8
    rfl rfl rfl rfl (by decide)

/-- The concrete scenario in full: the Blocked descriptor with run `[1,1]`,
threads `[4,8]`, warps `[1,1]` covers shape `[4,8]` exactly, and a `[2,64]`
tensor is clipped in dimension 0 only. -/
theorem shapePerCTA_scenario :
    getShapePerCTA sampleBlocked [4, 8] = some [4, 8] ∧
    getShapePerCTA sampleBlocked [2, 64] = some [2, 8] := by
  constructor <;> decide

/-- C18 (as stated, refuted): for a DotOperand wrapping a Sliced parent, and
for one wrapping a Shared parent, type lowering does not return a lowering
failure: the `cast<MmaEncodingAttr>` of the parent fails. -/
theorem lower_dot_operand_other_parent_aborts :
    convertTritonTensorType (sampleHelpers 2)
        (sampleTensor (Ty.float 16)
          (Attribute.dotOperand 0 (Attribute.slice 0 sampleBlocked)))
      = Run.abort ∧
    convertTritonTensorType (sampleHelpers 2)
        (sampleTensor (Ty.float 16)
          (Attribute.dotOperand 1 (Attribute.shared 1 1 1 [1, 0])))
      = Run.abort ∧
    convertTritonTensorType (sampleHelpers 2)
        (sampleTensor (Ty.float 16)
          (Attribute.dotOperand 0 (Attribute.slice 0 sampleBlocked)))
      ≠ Run.done none := by
  refine ⟨?_, ?_, ?_⟩ <;> decide

/-- C18 (amended): type lowering is not total over DotOperand descriptors.
For every tensor type whose descriptor is a DotOperand wrapping a parent that
is neither Blocked nor MMA, the cast of the parent to the MMA descriptor
fails and lowering stops there: it returns nothing, neither a representation
nor a lowering failure. -/
theorem lower_dot_operand_non_mma_parent_aborts (h : Helpers) (type : RankedTensorType)
    (opIdx : Nat) (parent : Attribute)
    (hEnc : type.encoding = some (Attribute.dotOperand opIdx parent))
    (hNotBlocked : parent.isaBlockedEncodingAttr = false)
    (hNotMma : parent.isaMmaEncodingAttr = false) :
    convertTritonTensorType h type = Run.abort ∧
    ∀ r, convertTritonTensorType h type ≠ Run.done r := by
  have hAbort : convertTritonTensorType h type = Run.abort := by
    cases parent with
    | blocked a b c d => simp [Attribute.isaBlockedEncodingAttr] at hNotBlocked
    | mma a b c => simp [Attribute.isaMmaEncodingAttr] at hNotMma
    | slice a b =>
      simp [convertTritonTensorType, hEnc, isRegisterLayout,
        Attribute.isaBlockedEncodingAttr, Attribute.isaSliceEncodingAttr,
        Attribute.isaMmaEncodingAttr]
    | dotOperand a b =>
      simp [convertTritonTensorType, hEnc, isRegisterLayout,
        Attribute.isaBlockedEncodingAttr, Attribute.isaSliceEncodingAttr,
        Attribute.isaMmaEncodingAttr]
    | shared a b c d =>
      simp [convertTritonTensorType, hEnc, isRegisterLayout,
        Attribute.isaBlockedEncodingAttr, Attribute.isaSliceEncodingAttr,
        Attribute.isaMmaEncodingAttr]
    | other a =>
      simp [convertTritonTensorType, hEnc, isRegisterLayout,
        Attribute.isaBlockedEncodingAttr, Attribute.isaSliceEncodingAttr,
        Attribute.isaMmaEncodingAttr]
  refine ⟨hAbort, fun r hr => ?_⟩
  rw [hAbort] at hr
  cases hr

/-- C18 (amended) at a concrete input: a DotOperand wrapping a Shared
parent. -/
theorem lower_dot_operand_non_mma_parent_aborts_witness :
    convertTritonTensorType (sampleHelpers 2)
        (sampleTensor (Ty.integer 8)
          (Attribute.dotOperand 0 (Attribute.shared 1 1 1 [1, 0])))
      = Run.abort ∧
    ∀ r, convertTritonTensorType (sampleHelpers 2)
        (sampleTensor (Ty.integer 8)
          (Attribute.dotOperand 0 (Attribute.shared 1 1 1 [1, 0])))
      ≠ Run.done r :=
  lower_dot_operand_non_mma_parent_aborts (sampleHelpers 2)
    (sampleTensor (Ty.integer 8) (Attribute.dotOperand 0 (Attribute.shared 1 1 1 [1, 0])))
    0 (Attribute.shared 1 1 1 [1, 0]) rfl rfl rfl

/-- C19: for every tensor type whose descriptor is a DotOperand with an Ampere
MMA parent and operand index 0 or 1 (its warps-per-CTA entry being present):
if the element type is bfloat16 or the 8-bit float type, it is first lowered
to `i16` resp. `i8` and every slot of the lowered register group is `i32`;
if the element type is the 16-bit IEEE half, every slot is a 2-wide vector of
it. -/
theorem lower_ampere_narrow_float_slots (h : Helpers) (type : RankedTensorType)
    (opIdx versionMajor versionMinor : Nat) (wpt : List Nat)
    (hEnc : type.encoding = some (Attribute.dotOperand opIdx
      (Attribute.mma versionMajor versionMinor wpt)))
    (hAmpere : (Attribute.mma versionMajor versionMinor wpt).isAmpere = true)
    (hIdx : opIdx = 0 ∨ opIdx = 1) (hWpt : opIdx < wpt.length) :
    (type.elementType = Ty.bf16 →
      convertType type.elementType = Ty.integer 16 ∧
      convertTritonTensorType h type = Run.done (some ⟨List.replicate
        (if opIdx = 0 then h.getANumElemsPerThread type (wpt.getD 0 0)
          else h.getBNumElemsPerThread type (wpt.getD 1 0)) (Ty.integer 32)⟩)) ∧
    (type.elementType = Ty.float8 →
      convertType type.elementType = Ty.integer 8 ∧
      convertTritonTensorType h type = Run.done (some ⟨List.replicate
        (if opIdx = 0 then h.getANumElemsPerThread type (wpt.getD 0 0)
          else h.getBNumElemsPerThread type (wpt.getD 1 0)) (Ty.integer 32)⟩)) ∧
    (type.elementType = Ty.float 16 →
      convertTritonTensorType h type = Run.done (some ⟨List.replicate
        (if opIdx = 0 then h.getANumElemsPerThread type (wpt.getD 0 0)
          else h.getBNumElemsPerThread type (wpt.getD 1 0))
        (Ty.vector (Ty.float 16) 2)⟩)) := by
  rw [convert_dot_operand_mma h type opIdx versionMajor versionMinor wpt hEnc]
  refine ⟨?_, ?_, ?_⟩
  · intro hT
    have hC : convertType type.elementType = Ty.integer 16 := by rw [hT]; rfl
    refine ⟨hC, ?_⟩
    apply mmaParentPart_ampere h type versionMajor versionMinor wpt opIdx (Ty.integer 32)
      hAmpere _ hIdx hWpt
    rw [hC]
    rfl
  · intro hT
    have hC : convertType type.elementType = Ty.integer 8 := by rw [hT]; rfl
    refine ⟨hC, ?_⟩
    apply mmaParentPart_ampere h type versionMajor versionMinor wpt opIdx (Ty.integer 32)
      hAmpere _ hIdx hWpt
    rw [hC]
    rfl
  · intro hT
    have hC : convertType type.elementType = Ty.float 16 := by rw [hT]; rfl
    apply mmaParentPart_ampere h type versionMajor versionMinor wpt opIdx
      (Ty.vector (Ty.float 16) 2) hAmpere _ hIdx hWpt
    rw [hC]
    rfl

/-- C19 at a concrete input: operand 0 of an Ampere MMA with bfloat16 elements
and count 3 lowers to three `i32` slots. -/
theorem lower_ampere_narrow_float_slots_witness :
    convertTritonTensorType (sampleHelpers 3)
        (sampleTensor Ty.bf16 (Attribute.dotOperand 0 (Attribute.mma 2 0 [2, 2])))
      = Run.done (some ⟨List.replicate 3 (Ty.integer 32)⟩) :=
  ((lower_ampere_narrow_float_slots (sampleHelpers 3)
    (sampleTensor Ty.bf16 (Attribute.dotOperand 0 (Attribute.mma 2 0 [2, 2])))
    0 2 0 [2, 2] rfl rfl (Or.inl rfl) (by decide)).1 rfl).2

/-- C20: for every source Shared-Memory Object with at least two strides and
at least two offsets, the accesses `strides[0]`, `strides[1]`, `offsets[0]`,
`offsets[1]` are in bounds, the Transpose rewrite reports success, and its
result has the source base, exactly two strides and exactly two offsets; so
the result has the rank of the source exactly when the source has rank 2. -/
theorem trans_in_bounds_and_rank_two (src : StructValue) (obj : SharedMemoryObject)
    (hsrc : getSharedMemoryObjectFromStruct src = Run.done obj)
    (hs : 2 ≤ obj.strides.length) (ho : 2 ≤ obj.offsets.length) :
    ∃ s0 s1 o0 o1,
      indexAt obj.strides 0 = Run.done s0 ∧ indexAt obj.strides 1 = Run.done s1 ∧
      indexAt obj.offsets 0 = Run.done o0 ∧ indexAt obj.offsets 1 = Run.done o1 ∧
      TransOpConversion.transpose obj = Run.done ⟨obj.base, [s1, s0], [o1, o0]⟩ ∧
      TransOpConversion.matchAndRewrite src = Run.done ⟨LogicalResult.success,
        some (getStructFromSharedMemoryObject ⟨obj.base, [s1, s0], [o1, o0]⟩)⟩ ∧
      ([s1, s0].length = obj.strides.length ↔ obj.strides.length = 2) ∧
      ([o1, o0].length = obj.offsets.length ↔ obj.offsets.length = 2) := by
  obtain ⟨b, strides, offsets⟩ := obj
  obtain ⟨s0, s1, srest, rfl⟩ : ∃ a b l, strides = a :: b :: l := by
    match strides, hs with
    | a :: b :: l, _ => exact ⟨a, b, l, rfl⟩
  obtain ⟨o0, o1, orest, rfl⟩ : ∃ a b l, offsets = a :: b :: l := by
    match offsets, ho with
    | a :: b :: l, _ => exact ⟨a, b, l, rfl⟩
  refine ⟨s0, s1, o0, o1, rfl, rfl, rfl, rfl, rfl, ?_, ?_, ?_⟩
  · simp [TransOpConversion.matchAndRewrite, hsrc, Run.bind, TransOpConversion.transpose,
      indexAt]
  · simp only [List.length_cons, List.length_nil]
    omega
  · simp only [List.length_cons, List.length_nil]
    omega

/-- C20 at a concrete input: a rank-3 source (three strides, three offsets)
is rewritten with success into an object with two strides and two offsets. -/
theorem trans_in_bounds_and_rank_two_witness :
    ∃ s0 s1 o0 o1,
      indexAt [v 1 (Ty.integer 32), v 2 (Ty.integer 32), v 3 (Ty.integer 32)] 0
        = Run.done s0 ∧
      indexAt [v 1 (Ty.integer 32), v 2 (Ty.integer 32), v 3 (Ty.integer 32)] 1
        = Run.done s1 ∧
      indexAt [v 4 (Ty.integer 32), v 5 (Ty.integer 32), v 6 (Ty.integer 32)] 0
        = Run.done o0 ∧
      indexAt [v 4 (Ty.integer 32), v 5 (Ty.integer 32), v 6 (Ty.integer 32)] 1
        = Run.done o1 ∧
      TransOpConversion.transpose
          ⟨v 0 (Ty.llvmPtr (Ty.float 32) 3),
            [v 1 (Ty.integer 32), v 2 (Ty.integer 32), v 3 (Ty.integer 32)],
            [v 4 (Ty.integer 32), v 5 (Ty.integer 32), v 6 (Ty.integer 32)]⟩
        = Run.done ⟨v 0 (Ty.llvmPtr (Ty.float 32) 3), [s1, s0], [o1, o0]⟩ ∧
      TransOpConversion.matchAndRewrite
          (getStructFromSharedMemoryObject
            ⟨v 0 (Ty.llvmPtr (Ty.float 32) 3),
              [v 1 (Ty.integer 32), v 2 (Ty.integer 32), v 3 (Ty.integer 32)],
              [v 4 (Ty.integer 32), v 5 (Ty.integer 32), v 6 (Ty.integer 32)]⟩)
        = Run.done ⟨LogicalResult.success,
            some (getStructFromSharedMemoryObject
              ⟨v 0 (Ty.llvmPtr (Ty.float 32) 3), [s1, s0], [o1, o0]⟩)⟩ ∧
      ([s1, s0].length = 3 ↔ 3 = 2) ∧
      ([o1, o0].length = 3 ↔ 3 = 2) :=
  trans_in_bounds_and_rank_two
    (getStructFromSharedMemoryObject
      ⟨v 0 (Ty.llvmPtr (Ty.float 32) 3),
        [v 1 (Ty.integer 32), v 2 (Ty.integer 32), v 3 (Ty.integer 32)],
        [v 4 (Ty.integer 32), v 5 (Ty.integer 32), v 6 (Ty.integer 32)]⟩)
    ⟨v 0 (Ty.llvmPtr (Ty.float 32) 3),
      [v 1 (Ty.integer 32), v 2 (Ty.integer 32), v 3 (Ty.integer 32)],
      [v 4 (Ty.integer 32), v 5 (Ty.integer 32), v 6 (Ty.integer 32)]⟩
    (by simp [getSharedMemoryObjectFromStruct, getStructFromSharedMemoryObject,
      getElementsFromStruct, getStructFromElements])
    (by decide) (by decide)

end Triton
